import Mathlib

/-!
Shallow embedding of the ESP-IDF OTA backend from
src/esphome/components/ota/ota_backend_esp_idf.cpp (class IDFOTABackend).

External ESP-IDF calls (heap allocator, partition table, flash, the OTA
transaction API) are modelled by explicit environment records whose fields
hold the results the platform returns for each call; the flash contents,
the selected boot partition and the open OTA transaction live in a World
record that every operation threads through.  The md5 component is not part
of this repository, so the digest itself is an abstract parameter; the
session state records the byte stream fed to the accumulator.
-/

namespace EsphomeOta

/-- ESP-IDF error codes distinguished by the backend's error mapping:
ESP_OK, ESP_ERR_INVALID_SIZE, ESP_ERR_FLASH_OP_TIMEOUT, ESP_ERR_FLASH_OP_FAIL,
ESP_ERR_OTA_VALIDATE_FAILED, and a catch-all for every other code. -/
inductive EspErr where
  | espOk
  | errInvalidSize
  | errFlashOpTimeout
  | errFlashOpFail
  | errOtaValidateFailed
  | errOther (code : Nat)
deriving DecidableEq

/-- OTA response codes returned by the backend (values used in
ota_backend_esp_idf.cpp). -/
inductive OTAResponseTypes where
  | OTA_RESPONSE_OK
  | OTA_RESPONSE_ERROR_MAGIC
  | OTA_RESPONSE_ERROR_UPDATE_END
  | OTA_RESPONSE_ERROR_WRITING_FLASH
  | OTA_RESPONSE_ERROR_UNKNOWN
  | OTA_RESPONSE_ERROR_NO_UPDATE_PARTITION
  | OTA_RESPONSE_ERROR_MD5_MISMATCH
  | OTA_RESPONSE_ERROR_ESP32_NOT_ENOUGH_SPACE
deriving DecidableEq

/-- A flash partition reference: identity plus byte size
(esp_partition_t exposes more fields; only these are observed here). -/
@[ext] structure Partition where
  id : Nat
  size : Nat
deriving DecidableEq

/-- Platform state outside the backend object: per-partition flash contents
(partition id and byte offset to byte value), the boot target chosen by
esp_ota_set_boot_partition, and the in-progress OTA transaction opened by
esp_ota_begin (partition id and the bytes streamed so far). -/
@[ext] structure World where
  contents : Nat → Nat → Nat
  boot_target : Option Nat
  ota_txn : Option (Nat × List Nat)

/-- The member state of class IDFOTABackend (ota_backend_esp_idf.h).
md5_fed is the byte stream fed to the md5 accumulator since the last init;
expected_bin_md5 is the 32-char expected hex digest. -/
@[ext] structure IDFOTABackend where
  update_handle : Nat := 0
  partition : Option Partition := none
  md5_fed : List Nat := []
  expected_bin_md5 : List Char := []
  md5_set : Bool := false
  use_psram : Bool := false
  psram_buffer : Option (List Nat) := none
  buffer_size : Nat := 0
  bytes_received : Nat := 0
  target_partition_label : List Char := []
deriving DecidableEq

/-- A freshly constructed backend, as make_ota_backend builds it (member
initializers of the header; set_psram_mode chooses the mode). -/
def initBackend (psram : Bool) : IDFOTABackend :=
  { use_psram := psram }

/-- Results the platform returns for the external calls made by begin:
heap_caps_get_free_size(MALLOC_CAP_SPIRAM), whether heap_caps_malloc
succeeds, esp_ota_get_next_update_partition(nullptr), and the result of
esp_ota_begin. -/
structure BeginEnv where
  spiram_free : Nat
  malloc_ok : Bool
  next_update_partition : Option Partition
  ota_begin_err : EspErr

/-- Results the platform returns for the external calls made by end:
esp_partition_find_first by explicit label, esp_partition_find_first for
subtype APP_OTA_0, the erase result, per-offset write and read results,
esp_ota_set_boot_partition, and esp_ota_end. -/
structure EndEnv where
  find_by_label : List Char → Option Partition
  find_ota0 : Option Partition
  erase_err : EspErr
  part_write_err : Nat → EspErr
  part_read_err : Nat → EspErr
  set_boot_err : EspErr
  ota_end_err : EspErr

/-- Modelled from the spec: the md5 component (not under src/) compares the
finalized digest with the expected value case-insensitively, as a
fixed-length hexadecimal string. -/
def hexEqCI (a b : List Char) : Bool :=
  a.map Char.toLower == b.map Char.toLower

/-- memcpy of data into buf at offset off (PSRAM buffer copy in write). -/
def writeBytes (buf : List Nat) (off : Nat) (data : List Nat) : List Nat :=
  buf.take off ++ data ++ buf.drop (off + data.length)

/-- esp_partition_write of data at offset off into partition pid. -/
def partWrite (w : World) (pid off : Nat) (data : List Nat) : World :=
  { w with contents := fun q i =>
      if q = pid ∧ off ≤ i ∧ i < off + data.length then data.getD (i - off) 0
      else w.contents q i }

/-- esp_partition_erase_range: erased flash reads back as 0xFF. -/
def eraseRange (w : World) (pid off len : Nat) : World :=
  { w with contents := fun q i =>
      if q = pid ∧ off ≤ i ∧ i < off + len then 255
      else w.contents q i }

/-- esp_partition_read of len bytes at offset off from partition pid. -/
def readRange (w : World) (pid off len : Nat) : List Nat :=
  (List.range len).map (fun j => w.contents pid (off + j))

/-- esp_ota_end on success: the bytes streamed into the transaction become
the partition contents from offset 0; the handle is consumed either way. -/
def otaCommit (w : World) : World :=
  match w.ota_txn with
  | some (pid, bytes) =>
    { contents := fun q i =>
        if q = pid ∧ i < bytes.length then bytes.getD i 0 else w.contents q i,
      boot_target := w.boot_target,
      ota_txn := none }
  | none => { w with ota_txn := none }

/-- esp_ota_set_boot_partition on success. -/
def setBoot (w : World) (p : Option Partition) : World :=
  match p with
  | some q => { w with boot_target := some q.id }
  | none => w

/-- Error mapping of IDFOTABackend::begin, lines 86-91. -/
def mapBeginErr : EspErr → OTAResponseTypes
  | .errInvalidSize => .OTA_RESPONSE_ERROR_ESP32_NOT_ENOUGH_SPACE
  | .errFlashOpTimeout => .OTA_RESPONSE_ERROR_WRITING_FLASH
  | .errFlashOpFail => .OTA_RESPONSE_ERROR_WRITING_FLASH
  | _ => .OTA_RESPONSE_ERROR_UNKNOWN

/-- Error mapping of the standard-mode tail of IDFOTABackend::end,
lines 219-225. -/
def mapEndErr : EspErr → OTAResponseTypes
  | .errOtaValidateFailed => .OTA_RESPONSE_ERROR_UPDATE_END
  | .errFlashOpTimeout => .OTA_RESPONSE_ERROR_WRITING_FLASH
  | .errFlashOpFail => .OTA_RESPONSE_ERROR_WRITING_FLASH
  | _ => .OTA_RESPONSE_ERROR_UNKNOWN

/-- IDFOTABackend::abort (lines 228-239): free the PSRAM buffer if
allocated, esp_ota_abort the transaction if a handle is open, zero the
bookkeeping.  The partition field and digest state are untouched. -/
def IDFOTABackend.abort (st : IDFOTABackend) (w : World) : IDFOTABackend × World :=
  let w1 := if st.update_handle ≠ 0 then { w with ota_txn := none } else w
  ({ st with psram_buffer := none, update_handle := 0,
             buffer_size := 0, bytes_received := 0 }, w1)

/-- Ghost observation: this call to abort would perform heap_caps_free. -/
def abortFrees (st : IDFOTABackend) : Bool := st.psram_buffer.isSome

/-- Ghost observation: this call to abort would call esp_ota_abort. -/
def abortAborts (st : IDFOTABackend) : Bool := decide (st.update_handle ≠ 0)

/-- IDFOTABackend::begin (lines 27-95). -/
def IDFOTABackend.begin (st : IDFOTABackend) (w : World) (env : BeginEnv)
    (image_size : Nat) : OTAResponseTypes × IDFOTABackend × World :=
  if st.use_psram = true then
    if env.spiram_free = 0 then
      (.OTA_RESPONSE_ERROR_NO_UPDATE_PARTITION, st, w)
    else if env.spiram_free < image_size then
      (.OTA_RESPONSE_ERROR_ESP32_NOT_ENOUGH_SPACE, st, w)
    else if env.malloc_ok = false then
      (.OTA_RESPONSE_ERROR_ESP32_NOT_ENOUGH_SPACE, st, w)
    else
      (.OTA_RESPONSE_OK,
        { st with psram_buffer := some (List.replicate image_size 0),
                  buffer_size := image_size, bytes_received := 0,
                  md5_fed := [] }, w)
  else
    match env.next_update_partition with
    | none => (.OTA_RESPONSE_ERROR_NO_UPDATE_PARTITION, st, w)
    | some p =>
      if env.ota_begin_err = EspErr.espOk then
        (.OTA_RESPONSE_OK,
          { st with partition := some p, update_handle := 1, md5_fed := [] },
          { w with ota_txn := some (p.id, []) })
      else
        (mapBeginErr env.ota_begin_err,
          { st with partition := some p, update_handle := 0 }, w)

/-- IDFOTABackend::set_update_md5 (lines 97-100): memcpy of 32 hex chars. -/
def IDFOTABackend.set_update_md5 (st : IDFOTABackend) (m : List Char) :
    IDFOTABackend :=
  { st with expected_bin_md5 := m.take 32, md5_set := true }

/-- IDFOTABackend::set_target_partition (header, lines 23-28): copy a
nonempty label truncated to 16 chars; an empty label is ignored. -/
def IDFOTABackend.set_target_partition (st : IDFOTABackend) (label : List Char) :
    IDFOTABackend :=
  if label = [] then st
  else { st with target_partition_label := label.take 16 }

/-- IDFOTABackend::write (lines 102-127).  flash_err is the result
esp_ota_write returns for this call (direct mode only). -/
def IDFOTABackend.write (st : IDFOTABackend) (w : World) (flash_err : EspErr)
    (data : List Nat) : OTAResponseTypes × IDFOTABackend × World :=
  if st.use_psram = true then
    if st.bytes_received + data.length > st.buffer_size then
      (.OTA_RESPONSE_ERROR_UNKNOWN, st, w)
    else
      (.OTA_RESPONSE_OK,
        { st with
            psram_buffer :=
              some (writeBytes (st.psram_buffer.getD []) st.bytes_received data),
            bytes_received := st.bytes_received + data.length,
            md5_fed := st.md5_fed ++ data }, w)
  else
    let w1 := if flash_err = EspErr.espOk then
        match w.ota_txn with
        | some (pid, acc) => { w with ota_txn := some (pid, acc ++ data) }
        | none => w
      else w
    let st1 := { st with md5_fed := st.md5_fed ++ data }
    match flash_err with
    | .espOk => (.OTA_RESPONSE_OK, st1, w1)
    | .errOtaValidateFailed => (.OTA_RESPONSE_ERROR_MAGIC, st1, w1)
    | .errFlashOpTimeout => (.OTA_RESPONSE_ERROR_WRITING_FLASH, st1, w1)
    | .errFlashOpFail => (.OTA_RESPONSE_ERROR_WRITING_FLASH, st1, w1)
    | _ => (.OTA_RESPONSE_ERROR_UNKNOWN, st1, w1)

/-- The buffered-mode flash loop of end (lines 172-182): write the buffer
to the partition in 4096-byte chunks.  Returns whether every chunk write
succeeded together with the world after the writes performed so far. -/
def flashWriteLoop (env : EndEnv) (pid : Nat) (buf : List Nat) (sz : Nat)
    (w : World) (offset : Nat) : Bool × World :=
  if h : offset < sz then
    let chunk_len := min 4096 (sz - offset)
    if env.part_write_err offset = EspErr.espOk then
      flashWriteLoop env pid buf sz
        (partWrite w pid offset ((buf.drop offset).take chunk_len))
        (offset + chunk_len)
    else (false, w)
  else (true, w)
termination_by sz - offset
decreasing_by omega

/-- The buffered-mode verify loop of end (lines 184-195): re-read every
chunk and compare with the buffer; false on a read error or mismatch. -/
def flashVerifyLoop (env : EndEnv) (pid : Nat) (buf : List Nat) (sz : Nat)
    (w : World) (offset : Nat) : Bool :=
  if h : offset < sz then
    let chunk_len := min 4096 (sz - offset)
    if env.part_read_err offset = EspErr.espOk then
      if readRange w pid offset chunk_len = (buf.drop offset).take chunk_len then
        flashVerifyLoop env pid buf sz w (offset + chunk_len)
      else false
    else false
  else true
termination_by sz - offset
decreasing_by omega

/-- Result of IDFOTABackend::end: response, backend state, world, plus a
ghost flag recording whether this->abort() ran inside the call. -/
structure EndResult where
  resp : OTAResponseTypes
  st : IDFOTABackend
  w : World
  aborted : Bool

/-- IDFOTABackend::end (lines 129-226).  md5hex is the digest function of
the external md5 component (hex string of the bytes fed). -/
def IDFOTABackend.end_ (st : IDFOTABackend) (w : World) (env : EndEnv)
    (md5hex : List Nat → List Char) : EndResult :=
  if st.md5_set = true ∧
      hexEqCI (md5hex st.md5_fed) st.expected_bin_md5 = false then
    let pr := st.abort w
    ⟨.OTA_RESPONSE_ERROR_MD5_MISMATCH, pr.1, pr.2, true⟩
  else if st.use_psram = true then
    match (if st.target_partition_label = [] then env.find_ota0
           else env.find_by_label st.target_partition_label) with
    | none =>
      let pr := st.abort w
      ⟨.OTA_RESPONSE_ERROR_NO_UPDATE_PARTITION, pr.1, pr.2, true⟩
    | some p =>
      let st1 := { st with partition := some p }
      if env.erase_err ≠ EspErr.espOk then
        let pr := st1.abort w
        ⟨.OTA_RESPONSE_ERROR_WRITING_FLASH, pr.1, pr.2, true⟩
      else
        let w1 := eraseRange w p.id 0 p.size
        let buf := st1.psram_buffer.getD []
        let wl := flashWriteLoop env p.id buf st1.buffer_size w1 0
        if wl.1 = false then
          let pr := st1.abort wl.2
          ⟨.OTA_RESPONSE_ERROR_WRITING_FLASH, pr.1, pr.2, true⟩
        else if flashVerifyLoop env p.id buf st1.buffer_size wl.2 0 = false then
          let pr := st1.abort wl.2
          ⟨.OTA_RESPONSE_ERROR_WRITING_FLASH, pr.1, pr.2, true⟩
        else if env.set_boot_err ≠ EspErr.espOk then
          let pr := st1.abort wl.2
          ⟨.OTA_RESPONSE_ERROR_UPDATE_END, pr.1, pr.2, true⟩
        else
          let w3 := { wl.2 with boot_target := some p.id }
          let pr := st1.abort w3
          ⟨.OTA_RESPONSE_OK, pr.1, pr.2, true⟩
  else
    let st1 := { st with update_handle := 0 }
    if env.ota_end_err = EspErr.espOk then
      let w1 := otaCommit w
      if env.set_boot_err = EspErr.espOk then
        ⟨.OTA_RESPONSE_OK, st1, setBoot w1 st1.partition, false⟩
      else
        ⟨mapEndErr env.set_boot_err, st1, w1, false⟩
    else
      ⟨mapEndErr env.ota_end_err, st1, { w with ota_txn := none }, false⟩

/-- Session driver for the round-trip property: feed the chunks to write in
order with a storage layer that reports success, failing if any call
returns a response other than OK. -/
def writeSeq : IDFOTABackend → World → List (List Nat) →
    Option (IDFOTABackend × World)
  | st, w, [] => some (st, w)
  | st, w, c :: cs =>
    match st.write w EspErr.espOk c with
    | (.OTA_RESPONSE_OK, st2, w2) => writeSeq st2 w2 cs
    | _ => none

/-- A full session from a fresh backend: begin, all writes, end; none if
begin or any write returns a response other than OK. -/
def runSession (mode : Bool) (w0 : World) (benv : BeginEnv) (eenv : EndEnv)
    (md5hex : List Nat → List Char) (S : Nat) (chunks : List (List Nat)) :
    Option EndResult :=
  match (initBackend mode).begin w0 benv S with
  | (.OTA_RESPONSE_OK, st1, w1) =>
    match writeSeq st1 w1 chunks with
    | some (st2, w2) => some (st2.end_ w2 eenv md5hex)
    | none => none
  | _ => none

/-- A concrete platform state for concrete instances: all-zero flash, no
boot target selected, no open transaction. -/
def sampleWorld : World := ⟨fun _ _ => 0, none, none⟩

theorem mapEndErr_ne_ok (e : EspErr) : mapEndErr e ≠ .OTA_RESPONSE_OK := by
  cases e <;> simp [mapEndErr]

theorem partWrite_contents_in (w : World) (pid off : Nat) (data : List Nat)
    (i : Nat) (h1 : off ≤ i) (h2 : i < off + data.length) :
    (partWrite w pid off data).contents pid i = data.getD (i - off) 0 := by
  simp [partWrite, h1, h2]

theorem partWrite_contents_out (w : World) (pid off : Nat) (data : List Nat)
    (q i : Nat) (h : ¬(q = pid ∧ off ≤ i ∧ i < off + data.length)) :
    (partWrite w pid off data).contents q i = w.contents q i := by
  simp only [partWrite]
  rw [if_neg h]

theorem getD_drop_take (buf : List Nat) (off len k : Nat) (hk : k < len)
    (hle : off + len ≤ buf.length) :
    ((buf.drop off).take len).getD k 0 = buf.getD (off + k) 0 := by
  have h1 : k < ((buf.drop off).take len).length := by
    simp only [List.length_take, List.length_drop]
    omega
  rw [List.getD_eq_getElem _ _ h1, List.getD_eq_getElem _ _ (by omega)]
  simp

/-- Claim C8: abort is idempotent and total: a second abort changes
nothing, after any abort the buffer pointer is null, the handle is
cleared, the bookkeeping is zero, and a second call (or a call on a fresh
session) performs no free and no transaction abort. -/
theorem ota_abort_idempotent :
    ∀ (st : IDFOTABackend) (w : World),
      ((st.abort w).1.abort (st.abort w).2 = st.abort w) ∧
      (st.abort w).1.psram_buffer = none ∧
      (st.abort w).1.update_handle = 0 ∧
      (st.abort w).1.bytes_received = 0 ∧
      (st.abort w).1.buffer_size = 0 ∧
      abortFrees (st.abort w).1 = false ∧
      abortAborts (st.abort w).1 = false ∧
      (∀ b : Bool, abortFrees (initBackend b) = false ∧
        abortAborts (initBackend b) = false) := by
  intro st w
  refine ⟨?_, rfl, rfl, rfl, rfl, rfl, by simp [IDFOTABackend.abort, abortAborts],
    fun b => ⟨rfl, by simp [initBackend, abortAborts]⟩⟩
  simp [IDFOTABackend.abort]

/-- Claim C6: the buffered-mode overflow guard: a chunk that would run past
the allocated buffer returns UnknownError and mutates nothing; otherwise
the chunk is copied at the current offset, bytes-received advances, and
the chunk is fed to the digest; bytes-received never exceeds the buffer
size. -/
theorem ota_write_psram_overflow_guard (st : IDFOTABackend) (w : World)
    (e : EspErr) (data buf : List Nat)
    (hp : st.use_psram = true) (hb : st.psram_buffer = some buf) :
    (st.buffer_size < st.bytes_received + data.length →
      st.write w e data = (.OTA_RESPONSE_ERROR_UNKNOWN, st, w)) ∧
    (st.bytes_received + data.length ≤ st.buffer_size →
      st.write w e data = (.OTA_RESPONSE_OK,
        { st with psram_buffer := some (writeBytes buf st.bytes_received data),
                  bytes_received := st.bytes_received + data.length,
                  md5_fed := st.md5_fed ++ data }, w)) ∧
    (st.bytes_received ≤ st.buffer_size →
      (st.write w e data).2.1.bytes_received ≤ st.buffer_size) := by
  refine ⟨fun h => ?_, fun h => ?_, fun h => ?_⟩
  · simp only [IDFOTABackend.write, hp, if_true]
    rw [if_pos (by omega)]
  · simp only [IDFOTABackend.write, hp, if_true]
    rw [if_neg (by omega)]
    simp [hb]
  · simp only [IDFOTABackend.write, hp, if_true]
    split
    · exact h
    · simp only []
      omega

/-- Claim C6 witness: a two-byte buffer rejects a three-byte chunk
unchanged and accepts a two-byte chunk. -/
theorem ota_write_psram_overflow_guard_witness :
    (({ (initBackend true) with psram_buffer := some [0, 0], buffer_size := 2 }
        : IDFOTABackend).write sampleWorld .espOk [1, 2, 3] =
      (.OTA_RESPONSE_ERROR_UNKNOWN,
        { (initBackend true) with psram_buffer := some [0, 0], buffer_size := 2 },
        sampleWorld)) := by
  exact (ota_write_psram_overflow_guard _ sampleWorld .espOk [1, 2, 3] [0, 0]
    rfl rfl).1 (by decide)

/-- Claim C5 counterexample: with zero bytes of free PSRAM and image size
4, buffered begin returns NoUpdatePartition, not InsufficientSpace as the
claim states for any shortfall including zero bytes free. -/
theorem ota_begin_zero_free_counterexample :
    ((initBackend true).begin sampleWorld ⟨0, true, none, .espOk⟩ 4).1 =
      .OTA_RESPONSE_ERROR_NO_UPDATE_PARTITION ∧
    OTAResponseTypes.OTA_RESPONSE_ERROR_NO_UPDATE_PARTITION ≠
      .OTA_RESPONSE_ERROR_ESP32_NOT_ENOUGH_SPACE := by
  exact ⟨rfl, by decide⟩

/-- Claim C5 amended: buffered begin returns NoUpdatePartition when the
pool reports zero bytes free (PSRAM unavailable); InsufficientSpace when
the nonzero free amount is below the image size or when allocation fails;
on success bytes-received is 0, the digest is initialized, and neither the
partition reference nor the platform state is touched. -/
theorem ota_begin_psram_space_checks (st : IDFOTABackend) (w : World)
    (env : BeginEnv) (S : Nat) (hp : st.use_psram = true) :
    (env.spiram_free = 0 →
      st.begin w env S = (.OTA_RESPONSE_ERROR_NO_UPDATE_PARTITION, st, w)) ∧
    (env.spiram_free ≠ 0 → env.spiram_free < S →
      st.begin w env S = (.OTA_RESPONSE_ERROR_ESP32_NOT_ENOUGH_SPACE, st, w)) ∧
    (env.spiram_free ≠ 0 → S ≤ env.spiram_free → env.malloc_ok = false →
      st.begin w env S = (.OTA_RESPONSE_ERROR_ESP32_NOT_ENOUGH_SPACE, st, w)) ∧
    (env.spiram_free ≠ 0 → S ≤ env.spiram_free → env.malloc_ok = true →
      st.begin w env S = (.OTA_RESPONSE_OK,
        { st with psram_buffer := some (List.replicate S 0), buffer_size := S,
                  bytes_received := 0, md5_fed := [] }, w)) := by
  refine ⟨fun h0 => ?_, fun h0 h1 => ?_, fun h0 h1 h2 => ?_, fun h0 h1 h2 => ?_⟩ <;>
    simp only [IDFOTABackend.begin, hp, if_true]
  · rw [if_pos h0]
  · rw [if_neg h0, if_pos h1]
  · rw [if_neg h0, if_neg (by omega), if_pos h2]
  · rw [if_neg h0, if_neg (by omega), if_neg (by simp [h2])]

/-- Claim C5 amended witness: free 8, size 4, allocator succeeds. -/
theorem ota_begin_psram_space_checks_witness :
    (initBackend true).begin sampleWorld ⟨8, true, none, .espOk⟩ 4 =
      (.OTA_RESPONSE_OK,
        { (initBackend true) with
            psram_buffer := some (List.replicate 4 0),
            buffer_size := 4, bytes_received := 0, md5_fed := [] },
        sampleWorld) := by
  exact (ota_begin_psram_space_checks (initBackend true) sampleWorld
    ⟨8, true, none, .espOk⟩ 4 rfl).2.2.2 (by decide) (by decide) rfl

/-- Claim C9 counterexample: in direct mode with an update partition
available and the storage layer accepting the zero-size transaction,
begin(0) returns Ok instead of a defined error. -/
theorem ota_begin_zero_direct_counterexample :
    ((initBackend false).begin sampleWorld ⟨0, false, some ⟨1, 4096⟩, .espOk⟩
      0).1 = .OTA_RESPONSE_OK := rfl

/-- Claim C9 amended: begin(0) is not rejected: in direct mode it returns
Ok whenever the partition lookup and the zero-size transaction open
succeed, and in buffered mode it returns Ok whenever free PSRAM is nonzero
and the allocator succeeds; the source has no explicit size-zero guard. -/
theorem ota_begin_zero_not_rejected (w : World) (env : BeginEnv)
    (p : Partition) (hnp : env.next_update_partition = some p)
    (hok : env.ota_begin_err = .espOk)
    (hfree : env.spiram_free ≠ 0) (hmalloc : env.malloc_ok = true) :
    ((initBackend false).begin w env 0).1 = .OTA_RESPONSE_OK ∧
    ((initBackend true).begin w env 0).1 = .OTA_RESPONSE_OK := by
  constructor
  · simp [IDFOTABackend.begin, initBackend, hnp, hok]
  · simp [IDFOTABackend.begin, initBackend, hfree, hmalloc]

/-- Claim C9 amended witness: concrete environment accepting begin(0) in
both modes. -/
theorem ota_begin_zero_not_rejected_witness :
    ((initBackend false).begin sampleWorld ⟨8, true, some ⟨1, 4096⟩, .espOk⟩
      0).1 = .OTA_RESPONSE_OK ∧
    ((initBackend true).begin sampleWorld ⟨8, true, some ⟨1, 4096⟩, .espOk⟩
      0).1 = .OTA_RESPONSE_OK := by
  exact ota_begin_zero_not_rejected sampleWorld ⟨8, true, some ⟨1, 4096⟩, .espOk⟩
    ⟨1, 4096⟩ rfl rfl (by decide) rfl

/-- Claim C10: in direct mode write feeds the chunk to the digest
unconditionally, even when the flash write fails (and then returns an
error), whereas in buffered mode the digest is fed only when the copy
succeeds. -/
theorem ota_write_digest_on_flash_error (st : IDFOTABackend) (w : World)
    (e : EspErr) (data : List Nat) :
    (st.use_psram = false →
      (st.write w e data).2.1.md5_fed = st.md5_fed ++ data ∧
      (e ≠ EspErr.espOk → (st.write w e data).1 ≠ .OTA_RESPONSE_OK)) ∧
    (st.use_psram = true →
      st.buffer_size < st.bytes_received + data.length →
      (st.write w e data).2.1.md5_fed = st.md5_fed) ∧
    (st.use_psram = true →
      st.bytes_received + data.length ≤ st.buffer_size →
      (st.write w e data).2.1.md5_fed = st.md5_fed ++ data) := by
  refine ⟨fun hp => ⟨?_, fun he => ?_⟩, fun hp h => ?_, fun hp h => ?_⟩
  · simp only [IDFOTABackend.write, hp]
    cases e <;> simp
  · simp only [IDFOTABackend.write, hp]
    cases e <;> simp_all
  · simp only [IDFOTABackend.write, hp, if_true]
    rw [if_pos (by omega)]
  · simp only [IDFOTABackend.write, hp, if_true]
    rw [if_neg (by omega)]

/-- Claim C10 witness: a failing direct-mode flash write still extends the
digest stream, and a buffered overflow leaves it unchanged. -/
theorem ota_write_digest_on_flash_error_witness :
    (((initBackend false).write sampleWorld .errFlashOpFail [5]).2.1.md5_fed =
      [] ++ [5]) ∧
    ((({ (initBackend true) with
          psram_buffer := some [0], buffer_size := 1,
          bytes_received := 1 } : IDFOTABackend).write sampleWorld .espOk
        [9]).2.1.md5_fed = []) := by
  refine ⟨(ota_write_digest_on_flash_error (initBackend false) sampleWorld
    .errFlashOpFail [5]).1 rfl |>.1, ?_⟩
  exact (ota_write_digest_on_flash_error _ sampleWorld .espOk [9]).2.1 rfl
    (by decide)

/-- Claim C1: in either mode, if an expected digest is set and the
finalized digest of the bytes fed to write does not match it
(case-insensitive fixed-length hex comparison), end returns
ChecksumMismatch, internally calls abort (buffer released, open
transaction discarded), and neither the flash contents nor the boot
target change: no erase, write or set-boot-target runs after the mismatch
is detected. -/
theorem ota_end_md5_mismatch_aborts (st : IDFOTABackend) (w : World)
    (env : EndEnv) (md5hex : List Nat → List Char)
    (hset : st.md5_set = true)
    (hmm : hexEqCI (md5hex st.md5_fed) st.expected_bin_md5 = false) :
    (st.end_ w env md5hex).resp = .OTA_RESPONSE_ERROR_MD5_MISMATCH ∧
    (st.end_ w env md5hex).aborted = true ∧
    (st.end_ w env md5hex).st = (st.abort w).1 ∧
    (st.end_ w env md5hex).w = (st.abort w).2 ∧
    (st.end_ w env md5hex).st.psram_buffer = none ∧
    (st.update_handle ≠ 0 → (st.end_ w env md5hex).w.ota_txn = none) ∧
    (st.end_ w env md5hex).w.contents = w.contents ∧
    (st.end_ w env md5hex).w.boot_target = w.boot_target := by
  have hcond : st.md5_set = true ∧
      hexEqCI (md5hex st.md5_fed) st.expected_bin_md5 = false := ⟨hset, hmm⟩
  have he : st.end_ w env md5hex =
      ⟨.OTA_RESPONSE_ERROR_MD5_MISMATCH, (st.abort w).1, (st.abort w).2,
        true⟩ := by
    unfold IDFOTABackend.end_
    rw [if_pos hcond]
  rw [he]
  refine ⟨rfl, rfl, rfl, rfl, rfl, fun h => ?_, ?_, ?_⟩
  · simp [IDFOTABackend.abort, h]
  · simp only [IDFOTABackend.abort]
    split <;> rfl
  · simp only [IDFOTABackend.abort]
    split <;> rfl

/-- Claim C1 witness: expected digest all f, computed digest empty. -/
theorem ota_end_md5_mismatch_aborts_witness :
    (({ (initBackend false) with
        md5_set := true, expected_bin_md5 := List.replicate 32 'f',
        update_handle := 1 } : IDFOTABackend).end_ sampleWorld
      ⟨fun _ => none, none, .espOk, fun _ => .espOk, fun _ => .espOk, .espOk,
        .espOk⟩ (fun _ => [])).resp = .OTA_RESPONSE_ERROR_MD5_MISMATCH ∧
    (({ (initBackend false) with
        md5_set := true, expected_bin_md5 := List.replicate 32 'f',
        update_handle := 1 } : IDFOTABackend).end_ sampleWorld
      ⟨fun _ => none, none, .espOk, fun _ => .espOk, fun _ => .espOk, .espOk,
        .espOk⟩ (fun _ => [])).aborted = true := by
  refine ⟨(ota_end_md5_mismatch_aborts _ sampleWorld _ _ rfl (by decide)).1,
    (ota_end_md5_mismatch_aborts _ sampleWorld _ _ rfl (by decide)).2.1⟩

/-- Claim C7 counterexample: with the transaction close succeeding and the
boot-target designation failing with a code that is neither a validation
nor a flash-operation error, direct-mode end returns UnknownError, not
UpdateEndError as the claim states for any non-flash failure of that
step. -/
theorem ota_end_direct_boot_other_counterexample :
    (({ (initBackend false) with
        update_handle := 1, partition := some ⟨1, 4096⟩ }
        : IDFOTABackend).end_ sampleWorld
      ⟨fun _ => none, none, .espOk, fun _ => .espOk, fun _ => .espOk,
        .errOther 3, .espOk⟩ (fun _ => [])).resp =
      .OTA_RESPONSE_ERROR_UNKNOWN ∧
    OTAResponseTypes.OTA_RESPONSE_ERROR_UNKNOWN ≠
      .OTA_RESPONSE_ERROR_UPDATE_END := by
  exact ⟨rfl, by decide⟩

/-- Claim C7 amended: in direct mode with no digest mismatch, end returns
Ok exactly when closing the transaction and designating the boot target
both succeed; otherwise the first failing code is mapped: validation
failure to UpdateEndError, flash-operation failure to FlashWriteError,
anything else to UnknownError. -/
theorem ota_end_direct_error_mapping (st : IDFOTABackend) (w : World)
    (env : EndEnv) (md5hex : List Nat → List Char)
    (hp : st.use_psram = false) (hm : st.md5_set = false) :
    ((st.end_ w env md5hex).resp = .OTA_RESPONSE_OK ↔
      env.ota_end_err = .espOk ∧ env.set_boot_err = .espOk) ∧
    (env.ota_end_err = .espOk → env.set_boot_err ≠ .espOk →
      (st.end_ w env md5hex).resp = mapEndErr env.set_boot_err) ∧
    (env.ota_end_err ≠ .espOk →
      (st.end_ w env md5hex).resp = mapEndErr env.ota_end_err) ∧
    mapEndErr .errOtaValidateFailed = .OTA_RESPONSE_ERROR_UPDATE_END ∧
    mapEndErr .errFlashOpTimeout = .OTA_RESPONSE_ERROR_WRITING_FLASH ∧
    mapEndErr .errFlashOpFail = .OTA_RESPONSE_ERROR_WRITING_FLASH := by
  have hcond : ¬(st.md5_set = true ∧
      hexEqCI (md5hex st.md5_fed) st.expected_bin_md5 = false) := by
    simp [hm]
  simp only [IDFOTABackend.end_, if_neg hcond, hp]
  refine ⟨?_, fun h1 h2 => ?_, fun h1 => ?_, rfl, rfl, rfl⟩
  · by_cases h1 : env.ota_end_err = EspErr.espOk <;>
      by_cases h2 : env.set_boot_err = EspErr.espOk <;>
      simp [h1, h2, mapEndErr_ne_ok]
  · simp [h1, h2]
  · simp [h1]

/-- Claim C7 amended witness: close fails with a validation error and end
maps it to UpdateEndError. -/
theorem ota_end_direct_error_mapping_witness :
    (({ (initBackend false) with
        update_handle := 1, partition := some ⟨1, 4096⟩ }
        : IDFOTABackend).end_ sampleWorld
      ⟨fun _ => none, none, .espOk, fun _ => .espOk, fun _ => .espOk,
        .espOk, .errOtaValidateFailed⟩ (fun _ => [])).resp =
      mapEndErr .errOtaValidateFailed := by
  exact (ota_end_direct_error_mapping _ sampleWorld _ _ rfl rfl).2.2.1
    (by decide)

/-- Claim C3 counterexample: a direct-mode end whose transaction close
fails returns UpdateEndError without invoking the internal abort. -/
theorem ota_end_direct_fail_no_abort_counterexample :
    (({ (initBackend false) with
        update_handle := 1, partition := some ⟨1, 4096⟩ }
        : IDFOTABackend).end_ sampleWorld
      ⟨fun _ => none, none, .espOk, fun _ => .espOk, fun _ => .espOk,
        .espOk, .errOtaValidateFailed⟩ (fun _ => [])).aborted = false ∧
    (({ (initBackend false) with
        update_handle := 1, partition := some ⟨1, 4096⟩ }
        : IDFOTABackend).end_ sampleWorld
      ⟨fun _ => none, none, .espOk, fun _ => .espOk, fun _ => .espOk,
        .espOk, .errOtaValidateFailed⟩ (fun _ => [])).resp =
      .OTA_RESPONSE_ERROR_UPDATE_END ∧
    OTAResponseTypes.OTA_RESPONSE_ERROR_UPDATE_END ≠ .OTA_RESPONSE_OK := by
  exact ⟨rfl, rfl, by decide⟩

/-- Claim C3 amended: in buffered mode every failing exit of end invokes
the internal abort (releasing the buffer, discarding the transaction and
zeroing the bookkeeping); in direct mode failing exits other than the
checksum mismatch do not invoke abort, but the transaction handle is
cleared (esp_ota_end consumes it) and the buffer remains unallocated, so
no resource survives the failing exit in either mode. -/
theorem ota_end_failure_cleanup (st : IDFOTABackend) (w : World)
    (env : EndEnv) (md5hex : List Nat → List Char) :
    (st.use_psram = true → (st.end_ w env md5hex).resp ≠ .OTA_RESPONSE_OK →
      (st.end_ w env md5hex).aborted = true) ∧
    (st.use_psram = false → (st.end_ w env md5hex).resp ≠ .OTA_RESPONSE_OK →
      (st.end_ w env md5hex).st.update_handle = 0 ∧
      (st.psram_buffer = none → (st.end_ w env md5hex).st.psram_buffer =
        none)) := by
  constructor
  · intro hp _
    unfold IDFOTABackend.end_
    split
    · rfl
    · split
      · rfl
      · dsimp only
        split
        · rfl
        · split
          · rfl
          · split
            · rfl
            · split
              · rfl
              · rfl
  · intro hp _
    unfold IDFOTABackend.end_
    split
    · exact ⟨rfl, fun _ => rfl⟩
    · split
      · simp_all
      · split
        · split
          · exact ⟨rfl, fun h => h⟩
          · exact ⟨rfl, fun h => h⟩
        · exact ⟨rfl, fun h => h⟩

/-- Claim C3 amended witness: a buffered checksum-mismatch exit invokes
abort, and a failing direct-mode close leaves the handle cleared. -/
theorem ota_end_failure_cleanup_witness :
    (({ (initBackend true) with
        md5_set := true, expected_bin_md5 := List.replicate 32 'f' }
        : IDFOTABackend).end_ sampleWorld
      ⟨fun _ => none, none, .espOk, fun _ => .espOk, fun _ => .espOk, .espOk,
        .espOk⟩ (fun _ => [])).aborted = true ∧
    (({ (initBackend false) with
        update_handle := 1, partition := some ⟨1, 4096⟩ }
        : IDFOTABackend).end_ sampleWorld
      ⟨fun _ => none, none, .espOk, fun _ => .espOk, fun _ => .espOk, .espOk,
        .errFlashOpFail⟩ (fun _ => [])).st.update_handle = 0 := by
  refine ⟨(ota_end_failure_cleanup _ sampleWorld _ _).1 rfl (by decide), ?_⟩
  exact ((ota_end_failure_cleanup _ sampleWorld _ _).2 rfl (by decide)).1

/-- Claim C4 counterexample: in a platform state where the next inactive
boot slot is partition 1 but the first app partition of subtype ota_0 is
partition 0, a buffered end with no explicit label resolves partition 0
while direct mode begins on partition 1 — the buffered default is not the
next-inactive-boot-slot lookup the claim states. -/
theorem ota_buffered_default_partition_counterexample :
    (({ (initBackend true) with
        psram_buffer := some [7], buffer_size := 1, bytes_received := 1 }
        : IDFOTABackend).end_ sampleWorld
      ⟨fun _ => none, some ⟨0, 4096⟩, .errFlashOpFail, fun _ => .espOk,
        fun _ => .espOk, .espOk, .espOk⟩ (fun _ => [])).st.partition =
      some ⟨0, 4096⟩ ∧
    ((initBackend false).begin sampleWorld
      ⟨0, true, some ⟨1, 4096⟩, .espOk⟩ 1).2.1.partition = some ⟨1, 4096⟩ ∧
    (⟨0, 4096⟩ : Partition) ≠ ⟨1, 4096⟩ := by
  exact ⟨rfl, rfl, by decide⟩

/-- Claim C4 amended: in buffered mode with the digest check passed or
skipped, end resolves the target partition by explicit label when one was
set and otherwise by the fixed lookup of the first app partition of
subtype ota_0 (not the next-inactive-slot lookup direct mode uses); a
failed lookup aborts and returns NoUpdatePartition, and a successful one
is recorded as the session's partition on every subsequent exit. -/
theorem ota_buffered_partition_resolution (st : IDFOTABackend) (w : World)
    (env : EndEnv) (md5hex : List Nat → List Char)
    (hp : st.use_psram = true) (hm : st.md5_set = false) :
    (st.target_partition_label = [] → env.find_ota0 = none →
      (st.end_ w env md5hex).resp = .OTA_RESPONSE_ERROR_NO_UPDATE_PARTITION ∧
      (st.end_ w env md5hex).aborted = true) ∧
    (st.target_partition_label = [] → ∀ p, env.find_ota0 = some p →
      (st.end_ w env md5hex).st.partition = some p) ∧
    (st.target_partition_label ≠ [] →
      env.find_by_label st.target_partition_label = none →
      (st.end_ w env md5hex).resp = .OTA_RESPONSE_ERROR_NO_UPDATE_PARTITION ∧
      (st.end_ w env md5hex).aborted = true) ∧
    (st.target_partition_label ≠ [] → ∀ p,
      env.find_by_label st.target_partition_label = some p →
      (st.end_ w env md5hex).st.partition = some p) := by
  have hcond : ¬(st.md5_set = true ∧
      hexEqCI (md5hex st.md5_fed) st.expected_bin_md5 = false) := by
    simp [hm]
  refine ⟨fun hl hf => ?_, fun hl p hf => ?_, fun hl hf => ?_,
    fun hl p hf => ?_⟩
  · unfold IDFOTABackend.end_
    rw [if_neg hcond, if_pos hp, if_pos hl, hf]
    exact ⟨rfl, rfl⟩
  · unfold IDFOTABackend.end_
    rw [if_neg hcond, if_pos hp, if_pos hl, hf]
    dsimp only
    split
    · rfl
    · split
      · rfl
      · split
        · rfl
        · split
          · rfl
          · rfl
  · unfold IDFOTABackend.end_
    rw [if_neg hcond, if_pos hp, if_neg hl, hf]
    exact ⟨rfl, rfl⟩
  · unfold IDFOTABackend.end_
    rw [if_neg hcond, if_pos hp, if_neg hl, hf]
    dsimp only
    split
    · rfl
    · split
      · rfl
      · split
        · rfl
        · split
          · rfl
          · rfl

/-- Claim C4 amended witness: explicit label found, erase fails, and the
resolved partition is the labelled one. -/
theorem ota_buffered_partition_resolution_witness :
    (({ (initBackend true) with
        psram_buffer := some [7], buffer_size := 1, bytes_received := 1,
        target_partition_label := ['a'] } : IDFOTABackend).end_ sampleWorld
      ⟨fun _ => some ⟨2, 4096⟩, some ⟨0, 4096⟩, .errFlashOpFail,
        fun _ => .espOk, fun _ => .espOk, .espOk, .espOk⟩
      (fun _ => [])).st.partition = some ⟨2, 4096⟩ := by
  exact (ota_buffered_partition_resolution _ sampleWorld _ _ rfl rfl).2.2.2
    (by decide) ⟨2, 4096⟩ rfl

theorem flashWriteLoop_spec (env : EndEnv) (pid : Nat) (buf : List Nat)
    (sz : Nat) (hok : ∀ o, env.part_write_err o = EspErr.espOk)
    (hsz : sz ≤ buf.length) :
    ∀ (n offset : Nat) (w : World), sz - offset ≤ n →
      (flashWriteLoop env pid buf sz w offset).1 = true ∧
      (flashWriteLoop env pid buf sz w offset).2.boot_target = w.boot_target ∧
      (flashWriteLoop env pid buf sz w offset).2.ota_txn = w.ota_txn ∧
      (∀ q i, q ≠ pid ∨ i < offset ∨ sz ≤ i →
        (flashWriteLoop env pid buf sz w offset).2.contents q i =
          w.contents q i) ∧
      (∀ i, offset ≤ i → i < sz →
        (flashWriteLoop env pid buf sz w offset).2.contents pid i =
          buf.getD i 0) := by
  intro n
  induction n with
  | zero =>
    intro offset w hn
    have hoff : ¬ offset < sz := by omega
    rw [flashWriteLoop, dif_neg hoff]
    exact ⟨rfl, rfl, rfl, fun q i _ => rfl,
      fun i h1 h2 => absurd (lt_of_le_of_lt h1 h2) hoff⟩
  | succ n ih =>
    intro offset w hn
    by_cases hoff : offset < sz
    · have hdl : ((buf.drop offset).take (min 4096 (sz - offset))).length =
          min 4096 (sz - offset) := by
        simp only [List.length_take, List.length_drop]
        omega
      obtain ⟨h1, h2, h3, h4, h5⟩ :=
        ih (offset + min 4096 (sz - offset))
          (partWrite w pid offset
            ((buf.drop offset).take (min 4096 (sz - offset)))) (by omega)
      rw [flashWriteLoop, dif_pos hoff]
      dsimp only
      rw [hok offset, if_pos rfl]
      refine ⟨h1, h2, h3, ?_, ?_⟩
      · intro q i hcase
        have hstep : q ≠ pid ∨ i < offset + min 4096 (sz - offset) ∨ sz ≤ i := by
          rcases hcase with h | h | h
          · exact Or.inl h
          · exact Or.inr (Or.inl (by omega))
          · exact Or.inr (Or.inr h)
        rw [h4 q i hstep]
        apply partWrite_contents_out
        rw [hdl]
        intro hc
        rcases hcase with h | h | h
        · exact h hc.1
        · omega
        · omega
      · intro i hi1 hi2
        by_cases hlt : i < offset + min 4096 (sz - offset)
        · rw [h4 pid i (Or.inr (Or.inl hlt))]
          rw [partWrite_contents_in w pid offset _ i hi1 (by rw [hdl]; omega)]
          rw [getD_drop_take buf offset (min 4096 (sz - offset)) (i - offset)
            (by omega) (by omega)]
          rw [Nat.add_sub_cancel' hi1]
        · exact h5 i (by omega) hi2
    · rw [flashWriteLoop, dif_neg hoff]
      exact ⟨rfl, rfl, rfl, fun q i _ => rfl,
        fun i h1 h2 => absurd (lt_of_le_of_lt h1 h2) hoff⟩

theorem flashVerifyLoop_spec (env : EndEnv) (pid : Nat) (buf : List Nat)
    (sz : Nat) (hok : ∀ o, env.part_read_err o = EspErr.espOk)
    (hsz : sz ≤ buf.length) (w : World)
    (hw : ∀ i, i < sz → w.contents pid i = buf.getD i 0) :
    ∀ (n offset : Nat), sz - offset ≤ n →
      flashVerifyLoop env pid buf sz w offset = true := by
  intro n
  induction n with
  | zero =>
    intro offset hn
    have hoff : ¬ offset < sz := by omega
    rw [flashVerifyLoop, dif_neg hoff]
  | succ n ih =>
    intro offset hn
    by_cases hoff : offset < sz
    · rw [flashVerifyLoop, dif_pos hoff]
      dsimp only
      rw [hok offset, if_pos rfl]
      have heq : readRange w pid offset (min 4096 (sz - offset)) =
          (buf.drop offset).take (min 4096 (sz - offset)) := by
        apply List.ext_getElem
        · simp only [readRange, List.length_map, List.length_range,
            List.length_take, List.length_drop]
          omega
        · intro j hj1 hj2
          have hjlt : j < min 4096 (sz - offset) := by
            simpa [readRange] using hj1
          simp only [readRange, List.getElem_map, List.getElem_range,
            List.getElem_take, List.getElem_drop]
          rw [hw (offset + j) (by omega)]
          rw [List.getD_eq_getElem buf 0 (by omega)]
      rw [if_pos heq]
      exact ih (offset + min 4096 (sz - offset)) (by omega)
    · rw [flashVerifyLoop, dif_neg hoff]

theorem write_direct_ok (st : IDFOTABackend) (w : World) (pid : Nat)
    (acc data : List Nat) (hp : st.use_psram = false)
    (htxn : w.ota_txn = some (pid, acc)) :
    st.write w EspErr.espOk data =
      (.OTA_RESPONSE_OK, { st with md5_fed := st.md5_fed ++ data },
        { w with ota_txn := some (pid, acc ++ data) }) := by
  simp [IDFOTABackend.write, hp, htxn]

theorem writeSeq_direct (cs : List (List Nat)) :
    ∀ (st : IDFOTABackend) (w : World) (pid : Nat) (acc : List Nat),
      st.use_psram = false → w.ota_txn = some (pid, acc) →
      writeSeq st w cs = some
        ({ st with md5_fed := st.md5_fed ++ cs.flatten },
         { w with ota_txn := some (pid, acc ++ cs.flatten) }) := by
  induction cs with
  | nil =>
    intro st w pid acc hp htxn
    simp only [writeSeq, List.flatten_nil, List.append_nil]
    rw [← htxn]
  | cons c cs ih =>
    intro st w pid acc hp htxn
    simp only [writeSeq]
    rw [write_direct_ok st w pid acc c hp htxn]
    dsimp only
    rw [ih { st with md5_fed := st.md5_fed ++ c }
      { w with ota_txn := some (pid, acc ++ c) } pid (acc ++ c) hp rfl]
    simp [List.flatten_cons, List.append_assoc]

theorem write_psram_ok (st : IDFOTABackend) (w : World) (e : EspErr)
    (acc data : List Nat) (hp : st.use_psram = true)
    (hb : st.psram_buffer =
      some (acc ++ List.replicate (st.buffer_size - acc.length) 0))
    (hr : st.bytes_received = acc.length)
    (hle : acc.length + data.length ≤ st.buffer_size) :
    st.write w e data = (.OTA_RESPONSE_OK,
      { st with
          psram_buffer := some ((acc ++ data) ++
            List.replicate (st.buffer_size - (acc.length + data.length)) 0),
          bytes_received := acc.length + data.length,
          md5_fed := st.md5_fed ++ data }, w) := by
  have hwb : writeBytes
      (acc ++ List.replicate (st.buffer_size - acc.length) 0) acc.length data =
      (acc ++ data) ++
        List.replicate (st.buffer_size - (acc.length + data.length)) 0 := by
    unfold writeBytes
    rw [List.take_left, ← List.drop_drop, List.drop_left, List.drop_replicate,
      Nat.sub_sub]
  simp only [IDFOTABackend.write, hp, hr, hb, Option.getD_some, if_true]
  rw [if_neg (by omega), hwb]

theorem writeSeq_psram (cs : List (List Nat)) :
    ∀ (st : IDFOTABackend) (w : World) (acc : List Nat),
      st.use_psram = true →
      st.psram_buffer =
        some (acc ++ List.replicate (st.buffer_size - acc.length) 0) →
      st.bytes_received = acc.length →
      acc.length + cs.flatten.length ≤ st.buffer_size →
      writeSeq st w cs = some
        ({ st with
            psram_buffer := some ((acc ++ cs.flatten) ++
              List.replicate
                (st.buffer_size - (acc.length + cs.flatten.length)) 0),
            bytes_received := acc.length + cs.flatten.length,
            md5_fed := st.md5_fed ++ cs.flatten }, w) := by
  induction cs with
  | nil =>
    intro st w acc hp hb hr hle
    simp only [writeSeq, List.flatten_nil, List.append_nil, List.length_nil,
      Nat.add_zero]
    rw [← hb, ← hr]
  | cons c cs ih =>
    intro st w acc hp hb hr hle
    have hlc : (c :: cs).flatten.length = c.length + cs.flatten.length := by
      simp [List.flatten_cons]
    simp only [writeSeq]
    rw [write_psram_ok st w EspErr.espOk acc c hp hb hr (by omega)]
    dsimp only
    rw [ih { st with
          psram_buffer := some ((acc ++ c) ++
            List.replicate (st.buffer_size - (acc.length + c.length)) 0),
          bytes_received := acc.length + c.length,
          md5_fed := st.md5_fed ++ c } w (acc ++ c) hp
      (by simp [List.length_append]) (by simp [List.length_append])
      (by simp only [List.length_append]; rw [hlc] at hle; omega)]
    simp [List.flatten_cons, List.length_append, List.append_assoc,
      Nat.add_assoc]

theorem end_psram_ok (st : IDFOTABackend) (w : World) (env : EndEnv)
    (md5hex : List Nat → List Char) (p : Partition) (buf : List Nat)
    (hm : st.md5_set = false) (hp : st.use_psram = true)
    (hlabel : st.target_partition_label = [])
    (hfind : env.find_ota0 = some p)
    (herase : env.erase_err = EspErr.espOk)
    (hwok : ∀ o, env.part_write_err o = EspErr.espOk)
    (hrok : ∀ o, env.part_read_err o = EspErr.espOk)
    (hboot : env.set_boot_err = EspErr.espOk)
    (hbuf : st.psram_buffer = some buf) (hsz : st.buffer_size = buf.length) :
    (st.end_ w env md5hex).resp = .OTA_RESPONSE_OK ∧
    (st.end_ w env md5hex).w.boot_target = some p.id ∧
    (∀ i, i < buf.length →
      (st.end_ w env md5hex).w.contents p.id i = buf.getD i 0) ∧
    (st.end_ w env md5hex).st.psram_buffer = none := by
  have hcond : ¬(st.md5_set = true ∧
      hexEqCI (md5hex st.md5_fed) st.expected_bin_md5 = false) := by
    simp [hm]
  obtain ⟨hW1, hWboot, hWtxn, hWout, hWin⟩ :=
    flashWriteLoop_spec env p.id buf buf.length hwok (le_refl _)
      buf.length 0 (eraseRange w p.id 0 p.size) (by omega)
  have hV := flashVerifyLoop_spec env p.id buf buf.length hrok (le_refl _)
    (flashWriteLoop env p.id buf buf.length (eraseRange w p.id 0 p.size) 0).2
    (fun i hi => hWin i (Nat.zero_le _) hi) buf.length 0 (by omega)
  unfold IDFOTABackend.end_
  rw [if_neg hcond, if_pos hp, if_pos hlabel, hfind]
  dsimp only
  rw [if_neg (by simp [herase])]
  simp only [hbuf, Option.getD_some, hsz]
  rw [if_neg (by simp [hW1]), if_neg (by simp [hV]),
    if_neg (by simp [hboot])]
  refine ⟨by trivial, ?_, ?_, by trivial⟩
  · simp only [IDFOTABackend.abort]
    split <;> rfl
  · intro i hi
    simp only [IDFOTABackend.abort]
    split <;> exact hWin i (Nat.zero_le _) hi

theorem end_direct_ok (st : IDFOTABackend) (w : World) (env : EndEnv)
    (md5hex : List Nat → List Char) (p : Partition) (bytes : List Nat)
    (hm : st.md5_set = false) (hp : st.use_psram = false)
    (hpart : st.partition = some p)
    (htxn : w.ota_txn = some (p.id, bytes))
    (hoe : env.ota_end_err = EspErr.espOk)
    (hsb : env.set_boot_err = EspErr.espOk) :
    (st.end_ w env md5hex).resp = .OTA_RESPONSE_OK ∧
    (st.end_ w env md5hex).w.boot_target = some p.id ∧
    (∀ i, i < bytes.length →
      (st.end_ w env md5hex).w.contents p.id i = bytes.getD i 0) := by
  have hcond : ¬(st.md5_set = true ∧
      hexEqCI (md5hex st.md5_fed) st.expected_bin_md5 = false) := by
    simp [hm]
  unfold IDFOTABackend.end_
  rw [if_neg hcond, if_neg (by simp [hp])]
  dsimp only
  rw [if_pos hoe, if_pos hsb]
  refine ⟨by trivial, ?_, ?_⟩
  · simp [setBoot, hpart]
  · intro i hi
    simp only [setBoot, hpart, otaCommit, htxn]
    simp [hi]

/-- Claim C2: for every image size S > 0 and every chunking of S bytes, a
fresh session in either mode with no expected digest whose platform
reports no failures runs begin(S), all writes and end() returning Ok at
every step, and the first S bytes of the committed target partition equal
the concatenation of the written chunks, with that partition as the boot
target. -/
theorem ota_roundtrip_ok (mode : Bool) (w0 : World) (benv : BeginEnv)
    (eenv : EndEnv) (md5hex : List Nat → List Char) (S : Nat)
    (chunks : List (List Nat)) (p : Partition)
    (hS : 0 < S) (hlen : chunks.flatten.length = S)
    (hdir : mode = false → benv.next_update_partition = some p ∧
      benv.ota_begin_err = .espOk ∧ eenv.ota_end_err = .espOk ∧
      eenv.set_boot_err = .espOk)
    (hbufm : mode = true → S ≤ benv.spiram_free ∧ benv.malloc_ok = true ∧
      eenv.find_ota0 = some p ∧ eenv.erase_err = .espOk ∧
      (∀ o, eenv.part_write_err o = .espOk) ∧
      (∀ o, eenv.part_read_err o = .espOk) ∧
      eenv.set_boot_err = .espOk) :
    ∃ r, runSession mode w0 benv eenv md5hex S chunks = some r ∧
      r.resp = .OTA_RESPONSE_OK ∧ r.w.boot_target = some p.id ∧
      ∀ i, i < S → r.w.contents p.id i = chunks.flatten.getD i 0 := by
  cases mode
  · obtain ⟨hnp, hbg, hoe, hsb⟩ := hdir rfl
    unfold runSession
    have hbegin : (initBackend false).begin w0 benv S =
        (.OTA_RESPONSE_OK,
          { (initBackend false) with
              partition := some p, update_handle := 1, md5_fed := [] },
          { w0 with ota_txn := some (p.id, []) }) := by
      simp [IDFOTABackend.begin, initBackend, hnp, hbg]
    rw [hbegin]
    dsimp only
    rw [writeSeq_direct chunks
      { (initBackend false) with
          partition := some p, update_handle := 1, md5_fed := [] }
      { w0 with ota_txn := some (p.id, []) } p.id [] rfl rfl]
    dsimp only
    refine ⟨_, rfl, ?_, ?_, ?_⟩
    · exact (end_direct_ok _ _ _ md5hex p chunks.flatten rfl rfl rfl rfl
        hoe hsb).1
    · exact (end_direct_ok _ _ _ md5hex p chunks.flatten rfl rfl rfl rfl
        hoe hsb).2.1
    · intro i hi
      exact (end_direct_ok _ _ _ md5hex p chunks.flatten rfl rfl rfl rfl
        hoe hsb).2.2 i (by omega)
  · obtain ⟨hfree, hmal, hfind, her, hwo, hro, hsb⟩ := hbufm rfl
    unfold runSession
    have hbegin : (initBackend true).begin w0 benv S =
        (.OTA_RESPONSE_OK,
          { (initBackend true) with
              psram_buffer := some (List.replicate S 0), buffer_size := S,
              bytes_received := 0, md5_fed := [] }, w0) := by
      unfold IDFOTABackend.begin
      rw [if_pos (show (initBackend true).use_psram = true from rfl),
        if_neg (by omega), if_neg (by omega), if_neg (by simp [hmal])]
    rw [hbegin]
    dsimp only
    rw [writeSeq_psram chunks
      { (initBackend true) with
          psram_buffer := some (List.replicate S 0), buffer_size := S,
          bytes_received := 0, md5_fed := [] } w0 [] rfl rfl rfl
      (by simp [hlen])]
    dsimp only
    refine ⟨_, rfl, ?_, ?_, ?_⟩
    · exact (end_psram_ok _ _ _ md5hex p chunks.flatten rfl rfl rfl hfind
        her hwo hro hsb (by simp [hlen]) (by simp [hlen])).1
    · exact (end_psram_ok _ _ _ md5hex p chunks.flatten rfl rfl rfl hfind
        her hwo hro hsb (by simp [hlen]) (by simp [hlen])).2.1
    · intro i hi
      exact (end_psram_ok _ _ _ md5hex p chunks.flatten rfl rfl rfl hfind
        her hwo hro hsb (by simp [hlen]) (by simp [hlen])).2.2.1 i (by omega)

/-- Claim C2 witness: a direct-mode session writing bytes 7 then 9 in two
chunks commits them and points the boot target at the written
partition. -/
theorem ota_roundtrip_ok_witness :
    ∃ r, runSession false sampleWorld ⟨0, false, some ⟨1, 8⟩, .espOk⟩
      ⟨fun _ => none, none, .espOk, fun _ => .espOk, fun _ => .espOk, .espOk,
        .espOk⟩ (fun _ => []) 2 [[7], [9]] = some r ∧
      r.resp = .OTA_RESPONSE_OK ∧
      r.w.boot_target = some (Partition.mk 1 8).id ∧
      ∀ i, i < 2 → r.w.contents (Partition.mk 1 8).id i =
        ([[7], [9]] : List (List Nat)).flatten.getD i 0 := by
  exact ota_roundtrip_ok false sampleWorld ⟨0, false, some ⟨1, 8⟩, .espOk⟩
    ⟨fun _ => none, none, .espOk, fun _ => .espOk, fun _ => .espOk, .espOk,
      .espOk⟩ (fun _ => []) 2 [[7], [9]] ⟨1, 8⟩ (by decide) (by decide)
    (fun _ => ⟨rfl, rfl, rfl, rfl⟩) (fun h => Bool.noConfusion h)

end EsphomeOta
